import Mathlib

/-!
Shallow embedding of `src/dataset_50/get_address.py`.

The core of the program is:
* `parse_dms` — converts a DMS string such as `37 deg 36' 55.54" N` into a
  signed decimal degree, via the anchored regular expression
  `^\s*(\d+)\s*deg\s+(\d+)\s*['′]\s+(\d+(?:\.\d+)?)\s*["″]\s+([NSEW])\s*$`
  (VERBOSE, IGNORECASE) applied to the stripped input; a non-match raises
  `ValueError(f"Invalid DMS format: {dms_str}")`; `None`/NaN/non-string
  input returns `None`.
* `get_address_from_coordinates` — returns "No coordinates available" when a
  coordinate is null, otherwise calls the geocoding client, mapping an empty
  result to "Address not found" and an exception to
  `"Error getting address: " + message`.
* `process_row` — short-circuits on missing/empty/null coordinate fields,
  parses both fields, and catches every exception into an
  `"Error: " + message` row with null coordinates.
* `process_coordinates_file` — maps `process_row` over the rows, pairing the
  carried-through `SourceFile` identifier with each processed result.

Numbers are modelled as `ℚ`; Python values that can appear in a coordinate
field are modelled by `PyVal` (None, NaN, string, number).  The functions
additionally return invocation counters (number of `parse_dms` calls and of
geocoding-client calls) so that "collaborator is never invoked" claims are
statable; the counters are pure instrumentation and do not influence any
returned value.
-/

namespace DoxLens

/-- Characters matched by the regex class `\s` (ASCII whitespace). -/
def isSpaceCh (c : Char) : Bool :=
  c = ' ' || c = '\t' || c = '\n' || c = '\r' || c = '\x0b' || c = '\x0c'

/-- Characters matched by the regex class `\d` (ASCII decimal digits). -/
def isDigitCh (c : Char) : Bool :=
  '0' ≤ c && c ≤ '9'

/-- Value of a digit string, as computed by Python `int`. -/
def natOfDigits (l : List Char) : ℕ :=
  l.foldl (fun a c => 10 * a + (c.toNat - '0'.toNat)) 0

/-- Python `str.strip()`: remove leading and trailing whitespace. -/
def stripList (l : List Char) : List Char :=
  ((l.dropWhile isSpaceCh).reverse.dropWhile isSpaceCh).reverse

/-- Match `\d+` (greedy): one or more digits, returning (digits, rest). -/
def matchDigits1 (l : List Char) : Option (List Char × List Char) :=
  if l.takeWhile isDigitCh = [] then Option.none
  else some (l.takeWhile isDigitCh, l.dropWhile isDigitCh)

/-- Match `\s+` (greedy): one or more whitespace characters. -/
def matchSpaces1 (l : List Char) : Option (List Char) :=
  match l with
  | c :: t => if isSpaceCh c then some (t.dropWhile isSpaceCh) else Option.none
  | [] => Option.none

/-- Match a literal token case-insensitively (re.IGNORECASE). -/
def matchCI (tok : List Char) (l : List Char) : Option (List Char) :=
  match tok, l with
  | [], rest => some rest
  | c :: tok1, x :: l1 => if x.toLower = c then matchCI tok1 l1 else Option.none
  | _ :: _, [] => Option.none

/-- Match a character class `[...]` given by an explicit list. -/
def matchOneOf (cs : List Char) (l : List Char) : Option (List Char) :=
  match l with
  | x :: t => if x ∈ cs then some t else Option.none
  | [] => Option.none

/-- Match `\d+(?:\.\d+)?`: integer part, optional fractional part.  The
optional group is taken only when a `.` immediately followed by at least one
digit is present, exactly as the regex backtracks. -/
def matchSeconds (l : List Char) : Option ((List Char × Option (List Char)) × List Char) :=
  match matchDigits1 l with
  | Option.none => Option.none
  | some (si, l1) =>
    match l1 with
    | c :: l2 =>
      if c = '.' then
        match matchDigits1 l2 with
        | some (sf, l3) => some ((si, some sf), l3)
        | Option.none => some ((si, Option.none), c :: l2)
      else some ((si, Option.none), c :: l2)
    | [] => some ((si, Option.none), [])

/-- Match `[NSEW]` under IGNORECASE, returning the character as it appeared. -/
def matchDir (l : List Char) : Option (Char × List Char) :=
  match l with
  | c :: t => if c.toUpper ∈ ['N', 'S', 'E', 'W'] then some (c, t) else Option.none
  | [] => Option.none

/-- The four capture groups of the DMS regular expression. -/
structure DMSGroups where
  degDigits : List Char
  minDigits : List Char
  secInt : List Char
  secFrac : Option (List Char)
  direction : Char
deriving DecidableEq, Repr

/-- The anchored pattern
`^\s*(\d+)\s*deg\s+(\d+)\s*['′]\s+(\d+(?:\.\d+)?)\s*["″]\s+([NSEW])\s*$`
with VERBOSE and IGNORECASE, as a deterministic matcher (no construct in
the pattern requires backtracking beyond the seconds group handled in
`matchSeconds`). -/
def dmsMatch (l : List Char) : Option DMSGroups :=
  (matchDigits1 (l.dropWhile isSpaceCh)).bind fun p1 =>
  (matchCI ['d', 'e', 'g'] (p1.2.dropWhile isSpaceCh)).bind fun l2 =>
  (matchSpaces1 l2).bind fun l3 =>
  (matchDigits1 l3).bind fun p2 =>
  (matchOneOf ['\'', '′'] (p2.2.dropWhile isSpaceCh)).bind fun l4 =>
  (matchSpaces1 l4).bind fun l5 =>
  (matchSeconds l5).bind fun p3 =>
  (matchOneOf ['"', '″'] (p3.2.dropWhile isSpaceCh)).bind fun l6 =>
  (matchSpaces1 l6).bind fun l7 =>
  (matchDir l7).bind fun p4 =>
  if p4.2.dropWhile isSpaceCh = [] then
    some ⟨p1.1, p2.1, p3.1.1, p3.1.2, p4.1⟩
  else Option.none

/-- The characters contributed by the optional fractional part of the seconds
group: nothing, or a dot followed by the fraction digits. -/
def fracChars : Option (List Char) → List Char
  | Option.none => []
  | some f => '.' :: f

/-- A well-formed DMS string stripped of leading/trailing whitespace:
digit runs `d1 d2 si` (and optional fraction `sf`), minute mark `pm`, second
mark `sm`, hemisphere letter `dir`, with whitespace runs `w1 … w6` between
the tokens. -/
def dmsCore (w1 w2 w3 w4 w5 w6 d1 d2 si : List Char) (sf : Option (List Char))
    (pm sm dir : Char) : List Char :=
  d1 ++ (w1 ++ (['d', 'e', 'g'] ++ (w2 ++ (d2 ++ (w3 ++ ([pm] ++ (w4 ++ (si ++
    (fracChars sf ++ (w5 ++ ([sm] ++ (w6 ++ [dir]))))))))))))

/-- A well-formed DMS string: a core surrounded by the whitespace runs
`w0` and `w7`. -/
def buildDMS (w0 w1 w2 w3 w4 w5 w6 w7 d1 d2 si : List Char)
    (sf : Option (List Char)) (pm sm dir : Char) : List Char :=
  w0 ++ (dmsCore w1 w2 w3 w4 w5 w6 d1 d2 si sf pm sm dir ++ w7)

/-- Value of the seconds group, as computed by Python `float` on a string of
shape `\d+(\.\d+)?` (exact rational value of the decimal literal). -/
def secondsVal : List Char × Option (List Char) → ℚ
  | (si, Option.none) => natOfDigits si
  | (si, some sf) => natOfDigits si + (natOfDigits sf : ℚ) / 10 ^ sf.length

/-- A Python value that can sit in a coordinate field: `None`, `float('nan')`,
a string, or a (non-NaN) number. -/
inductive PyVal where
  | none : PyVal
  | nan : PyVal
  | str : String → PyVal
  | num : ℚ → PyVal
deriving DecidableEq, Repr

/-- `pd.isna`: true exactly on `None` and NaN. -/
def PyVal.isna : PyVal → Bool
  | .none => true
  | .nan => true
  | .str _ => false
  | .num _ => false

/-- Python truthiness: `None` is falsy, NaN is truthy, a string is truthy iff
non-empty, a number is truthy iff non-zero. -/
def PyVal.truthy : PyVal → Bool
  | .none => false
  | .nan => true
  | .str s => s ≠ ""
  | .num q => q ≠ 0

/-- `parse_dms`: returns `Except.ok Option.none` for null-like or non-string
input, raises (`Except.error`) on a pattern mismatch, and otherwise converts
the captured groups to a signed decimal degree. -/
def parse_dms (v : PyVal) : Except String (Option ℚ) :=
  if v.isna then Except.ok Option.none
  else
    match v with
    | .str s =>
      match dmsMatch (stripList s.data) with
      | Option.none => Except.error ("Invalid DMS format: " ++ s)
      | some g =>
        let degrees : ℚ := natOfDigits g.degDigits
        let minutes : ℚ := natOfDigits g.minDigits
        let seconds : ℚ := secondsVal (g.secInt, g.secFrac)
        let decimal : ℚ := degrees + minutes / 60 + seconds / 3600
        if g.direction.toUpper = 'S' ∨ g.direction.toUpper = 'W' then
          Except.ok (some (-decimal))
        else Except.ok (some decimal)
    | _ => Except.ok Option.none

/-- The geocoding collaborator: given (lat, lng) it either raises
(`Except.error` with the exception message) or returns the list of results,
each result being its formatted address. -/
def GeoClient : Type := ℚ → ℚ → Except String (List String)

/-- `get_address_from_coordinates`; the second component counts client
invocations (0 or 1). -/
def get_address_from_coordinates (client : GeoClient) (lat lng : Option ℚ) :
    String × ℕ :=
  match lat, lng with
  | some a, some b =>
    match client a b with
    | Except.error e => ("Error getting address: " ++ e, 1)
    | Except.ok [] => ("Address not found", 1)
    | Except.ok (r :: _) => (r, 1)
  | _, _ => ("No coordinates available", 0)

/-- One input row: the `SourceFile` identifier plus the raw `GPSLatitude` and
`GPSLongitude` fields, `Option.none` meaning the column is absent (so that
`row.get(key, '')` yields the empty string). -/
structure InRow where
  sourceFile : String
  gpsLat : Option PyVal
  gpsLng : Option PyVal
deriving DecidableEq, Repr

/-- `row.get('GPSLatitude', '')`. -/
def InRow.getLat (r : InRow) : PyVal := r.gpsLat.getD (PyVal.str "")

/-- `row.get('GPSLongitude', '')`. -/
def InRow.getLng (r : InRow) : PyVal := r.gpsLng.getD (PyVal.str "")

/-- The per-row result series of `process_row`. -/
structure OutRow where
  address : String
  latitude : Option ℚ
  longitude : Option ℚ
deriving DecidableEq, Repr

/-- `process_row` with instrumentation: the result is
`(series, parse_dms call count, client call count)`.  The `try/except` of the
source catches exactly the `ValueError` raised by `parse_dms` (no other
statement in the block raises), which is modelled by the two `Except.error`
branches. -/
def process_row (r : InRow) (client : GeoClient) : OutRow × ℕ × ℕ :=
  let lat_dms := r.getLat
  let lng_dms := r.getLng
  if lat_dms.isna || lng_dms.isna || !lat_dms.truthy || !lng_dms.truthy then
    (⟨"No coordinates available", Option.none, Option.none⟩, 0, 0)
  else
    match parse_dms lat_dms with
    | Except.error e => (⟨"Error: " ++ e, Option.none, Option.none⟩, 1, 0)
    | Except.ok lat =>
      match parse_dms lng_dms with
      | Except.error e => (⟨"Error: " ++ e, Option.none, Option.none⟩, 2, 0)
      | Except.ok lng =>
        let a := get_address_from_coordinates client lat lng
        (⟨a.1, lat, lng⟩, 2, a.2)

/-- One row of the output table. -/
structure ResultRow where
  filename : String
  address : String
  latitude : Option ℚ
  longitude : Option ℚ
deriving DecidableEq, Repr

/-- The core of `process_coordinates_file`: the `SourceFile` column renamed to
`filename`, positionally concatenated with the rows produced by `process_row`
(file existence check, CSV I/O and the progress bar are boundary I/O). -/
def process_coordinates_file (client : GeoClient) (rows : List InRow) :
    List ResultRow :=
  rows.map fun r =>
    let p := (process_row r client).1
    ⟨r.sourceFile, p.address, p.latitude, p.longitude⟩

/-- A geocoding client whose lookups always return an empty result list. -/
def okEmptyClient : GeoClient := fun _ _ => Except.ok []

/-- A geocoding client whose lookups always raise. -/
def failClient : GeoClient := fun _ _ => Except.error "boom"

/-- A truthy, non-string, non-null Python value (in the modelled universe):
NaN, or a non-zero number. -/
def TruthyNonString (v : PyVal) : Prop :=
  v = PyVal.nan ∨ ∃ q : ℚ, v = PyVal.num q ∧ q ≠ 0

/-! ### Helper lemmas about the matcher -/

/-- The first character of `l`, if any, falsifies `p`. -/
def HeadNot (p : Char → Bool) (l : List Char) : Prop :=
  ∀ c t, l = c :: t → p c = false

theorem headNot_cons {p : Char → Bool} {c : Char} {t : List Char}
    (h : p c = false) : HeadNot p (c :: t) := by
  intro x r hx
  rw [← ((List.cons.injEq ..).mp hx).1]
  exact h

theorem headNot_nil (p : Char → Bool) : HeadNot p [] := by
  intro x r hx
  exact absurd hx (List.cons_ne_nil x r).symm

theorem dropWhile_cons_true {p : Char → Bool} {c : Char} (t : List Char)
    (h : p c = true) : (c :: t).dropWhile p = t.dropWhile p := by
  simp [List.dropWhile, h]

theorem dropWhile_cons_false {p : Char → Bool} {c : Char} (t : List Char)
    (h : p c = false) : (c :: t).dropWhile p = c :: t := by
  simp [List.dropWhile, h]

theorem dropWhile_of_headNot {p : Char → Bool} {l : List Char}
    (h : HeadNot p l) : l.dropWhile p = l := by
  cases l with
  | nil => rfl
  | cons c t => exact dropWhile_cons_false t (h c t rfl)

theorem takeWhile_cons_true {p : Char → Bool} {c : Char} (t : List Char)
    (h : p c = true) : (c :: t).takeWhile p = c :: t.takeWhile p := by
  simp [List.takeWhile, h]

theorem takeWhile_of_headNot {p : Char → Bool} {l : List Char}
    (h : HeadNot p l) : l.takeWhile p = [] := by
  cases l with
  | nil => rfl
  | cons c t => simp [List.takeWhile, h c t rfl]

theorem dropWhile_append_all {p : Char → Bool} (w l : List Char)
    (hw : ∀ c ∈ w, p c = true) : (w ++ l).dropWhile p = l.dropWhile p := by
  induction w with
  | nil => rfl
  | cons c t ih =>
    rw [List.cons_append, dropWhile_cons_true _ (hw c (by simp))]
    exact ih fun d hd => hw d (by simp [hd])

theorem takeWhile_append_all {p : Char → Bool} (w l : List Char)
    (hw : ∀ c ∈ w, p c = true) : (w ++ l).takeWhile p = w ++ l.takeWhile p := by
  induction w with
  | nil => rfl
  | cons c t ih =>
    rw [List.cons_append, takeWhile_cons_true _ (hw c (by simp)), List.cons_append,
      ih fun d hd => hw d (by simp [hd])]

theorem headNot_append_of_ne_nil {p : Char → Bool} (d t : List Char)
    (hne : d ≠ []) (hd : ∀ c ∈ d, p c = false) : HeadNot p (d ++ t) := by
  obtain ⟨c, d1, rfl⟩ := List.exists_cons_of_ne_nil hne
  rw [List.cons_append]
  exact headNot_cons (hd c (by simp))

theorem headNot_append_cases {p : Char → Bool} (w t : List Char)
    (hw : ∀ c ∈ w, p c = false) (ht : HeadNot p t) : HeadNot p (w ++ t) := by
  cases w with
  | nil => simpa using ht
  | cons c w1 => exact headNot_append_of_ne_nil _ t (by simp) hw

theorem dropSpaces_skip (w l : List Char) (hw : ∀ c ∈ w, isSpaceCh c = true)
    (hl : HeadNot isSpaceCh l) : (w ++ l).dropWhile isSpaceCh = l := by
  rw [dropWhile_append_all _ _ hw, dropWhile_of_headNot hl]

/-! ### Character classification facts -/

theorem space_chars {c : Char} (h : isSpaceCh c = true) :
    c = ' ' ∨ c = '\t' ∨ c = '\n' ∨ c = '\r' ∨ c = '\x0b' ∨ c = '\x0c' := by
  have h1 := h
  simp only [isSpaceCh, Bool.or_eq_true, decide_eq_true_eq] at h1
  tauto

theorem space_not_digit {c : Char} (h : isSpaceCh c = true) :
    isDigitCh c = false := by
  rcases space_chars h with rfl | rfl | rfl | rfl | rfl | rfl <;> decide

theorem digit_not_space {c : Char} (h : isDigitCh c = true) :
    isSpaceCh c = false := by
  cases hs : isSpaceCh c with
  | false => rfl
  | true => rw [space_not_digit hs] at h; exact absurd h (by simp)

theorem space_ne_dot {c : Char} (h : isSpaceCh c = true) : c ≠ '.' := by
  rcases space_chars h with rfl | rfl | rfl | rfl | rfl | rfl <;> decide

theorem prime_not_space {c : Char} (h : c = '\'' ∨ c = '′') :
    isSpaceCh c = false := by
  rcases h with rfl | rfl <;> decide

theorem prime_not_digit {c : Char} (h : c = '\'' ∨ c = '′') :
    isDigitCh c = false := by
  rcases h with rfl | rfl <;> decide

theorem dquote_not_space {c : Char} (h : c = '"' ∨ c = '″') :
    isSpaceCh c = false := by
  rcases h with rfl | rfl <;> decide

theorem dquote_not_digit {c : Char} (h : c = '"' ∨ c = '″') :
    isDigitCh c = false := by
  rcases h with rfl | rfl <;> decide

theorem dquote_ne_dot {c : Char} (h : c = '"' ∨ c = '″') : c ≠ '.' := by
  rcases h with rfl | rfl <;> decide

theorem dir_not_space {c : Char} (h : c.toUpper ∈ ['N', 'S', 'E', 'W']) :
    isSpaceCh c = false := by
  cases hs : isSpaceCh c with
  | false => rfl
  | true =>
    rcases space_chars hs with rfl | rfl | rfl | rfl | rfl | rfl <;>
      exact absurd h (by decide)

/-! ### Stage lemmas for the DMS matcher -/

theorem bindSome {α β : Type} (a : α) (f : α → Option β) :
    (some a).bind f = f a := rfl

theorem matchDigits1_spec (d t : List Char) (hne : d ≠ [])
    (hd : ∀ c ∈ d, isDigitCh c = true) (ht : HeadNot isDigitCh t) :
    matchDigits1 (d ++ t) = some (d, t) := by
  unfold matchDigits1
  rw [takeWhile_append_all _ _ hd, takeWhile_of_headNot ht,
    dropWhile_append_all _ _ hd, dropWhile_of_headNot ht, List.append_nil]
  exact if_neg hne

theorem matchSpaces1_spec (w t : List Char) (hne : w ≠ [])
    (hw : ∀ c ∈ w, isSpaceCh c = true) (ht : HeadNot isSpaceCh t) :
    matchSpaces1 (w ++ t) = some t := by
  obtain ⟨c, w1, rfl⟩ := List.exists_cons_of_ne_nil hne
  rw [List.cons_append]
  show (if isSpaceCh c = true then some ((w1 ++ t).dropWhile isSpaceCh)
    else Option.none) = some t
  rw [if_pos (hw c (by simp))]
  rw [dropSpaces_skip w1 t (fun d hd => hw d (by simp [hd])) ht]

theorem matchCI_deg (t : List Char) :
    matchCI ['d', 'e', 'g'] (['d', 'e', 'g'] ++ t) = some t := rfl

theorem matchPrime_spec (pm : Char) (t : List Char) (h : pm = '\'' ∨ pm = '′') :
    matchOneOf ['\'', '′'] ([pm] ++ t) = some t := by
  rcases h with rfl | rfl <;> rfl

theorem matchDquote_spec (sm : Char) (t : List Char) (h : sm = '"' ∨ sm = '″') :
    matchOneOf ['"', '″'] ([sm] ++ t) = some t := by
  rcases h with rfl | rfl <;> rfl

theorem matchDir_spec (dir : Char) (t : List Char)
    (h : dir.toUpper ∈ ['N', 'S', 'E', 'W']) :
    matchDir (dir :: t) = some (dir, t) := by
  unfold matchDir
  exact if_pos h

theorem matchSeconds_spec (si : List Char) (sf : Option (List Char))
    (t : List Char) (hne : si ≠ []) (hd : ∀ c ∈ si, isDigitCh c = true)
    (hsf : ∀ f, sf = some f → f ≠ [] ∧ ∀ c ∈ f, isDigitCh c = true)
    (ht : HeadNot isDigitCh t) (ht2 : ∀ c r, t = c :: r → c ≠ '.') :
    matchSeconds (si ++ (fracChars sf ++ t)) = some ((si, sf), t) := by
  cases sf with
  | none =>
    have he : fracChars Option.none ++ t = t := by simp [fracChars]
    rw [he]
    unfold matchSeconds
    rw [matchDigits1_spec si t hne hd ht]
    cases t with
    | nil => rfl
    | cons c r => exact if_neg (ht2 c r rfl)
  | some f =>
    have he : fracChars (some f) ++ t = '.' :: (f ++ t) := by simp [fracChars]
    rw [he]
    unfold matchSeconds
    rw [matchDigits1_spec si ('.' :: (f ++ t)) hne hd (headNot_cons (by decide))]
    show (if '.' = '.' then
        match matchDigits1 (f ++ t) with
        | some (sf, l3) => some ((si, some sf), l3)
        | Option.none => some ((si, Option.none), '.' :: (f ++ t))
      else some ((si, Option.none), '.' :: (f ++ t))) = some ((si, some f), t)
    rw [if_pos rfl]
    rw [matchDigits1_spec f t (hsf f rfl).1 (hsf f rfl).2 ht]

theorem headNeDot_spaces_dquote (w t : List Char) (sm : Char)
    (hw : ∀ c ∈ w, isSpaceCh c = true) (hsm : sm = '"' ∨ sm = '″') :
    ∀ c r, w ++ ([sm] ++ t) = c :: r → c ≠ '.' := by
  cases w with
  | nil =>
    intro c r h
    rw [List.nil_append, List.singleton_append] at h
    rw [← ((List.cons.injEq ..).mp h).1]
    exact dquote_ne_dot hsm
  | cons x w1 =>
    intro c r h
    rw [List.cons_append] at h
    rw [← ((List.cons.injEq ..).mp h).1]
    exact space_ne_dot (hw x (by simp))

/-- The matcher accepts every well-formed stripped DMS string and captures
exactly the built groups. -/
theorem dmsMatch_core (w1 w2 w3 w4 w5 w6 d1 d2 si : List Char)
    (sf : Option (List Char)) (pm sm dir : Char)
    (hw1 : ∀ c ∈ w1, isSpaceCh c = true) (hw2 : ∀ c ∈ w2, isSpaceCh c = true)
    (hw3 : ∀ c ∈ w3, isSpaceCh c = true) (hw4 : ∀ c ∈ w4, isSpaceCh c = true)
    (hw5 : ∀ c ∈ w5, isSpaceCh c = true) (hw6 : ∀ c ∈ w6, isSpaceCh c = true)
    (hw2n : w2 ≠ []) (hw4n : w4 ≠ []) (hw6n : w6 ≠ [])
    (hd1 : d1 ≠ []) (hd1d : ∀ c ∈ d1, isDigitCh c = true)
    (hd2 : d2 ≠ []) (hd2d : ∀ c ∈ d2, isDigitCh c = true)
    (hsi : si ≠ []) (hsid : ∀ c ∈ si, isDigitCh c = true)
    (hsf : ∀ f, sf = some f → f ≠ [] ∧ ∀ c ∈ f, isDigitCh c = true)
    (hpm : pm = '\'' ∨ pm = '′') (hsm : sm = '"' ∨ sm = '″')
    (hdir : dir.toUpper ∈ ['N', 'S', 'E', 'W']) :
    dmsMatch (dmsCore w1 w2 w3 w4 w5 w6 d1 d2 si sf pm sm dir) =
      some ⟨d1, d2, si, sf, dir⟩ := by
  have hnd1 : ∀ c ∈ d1, isSpaceCh c = false := fun c hc => digit_not_space (hd1d c hc)
  have hnd2 : ∀ c ∈ d2, isSpaceCh c = false := fun c hc => digit_not_space (hd2d c hc)
  have hnsi : ∀ c ∈ si, isSpaceCh c = false := fun c hc => digit_not_space (hsid c hc)
  have hw1d : ∀ c ∈ w1, isDigitCh c = false := fun c hc => space_not_digit (hw1 c hc)
  have hw3d : ∀ c ∈ w3, isDigitCh c = false := fun c hc => space_not_digit (hw3 c hc)
  have hw5d : ∀ c ∈ w5, isDigitCh c = false := fun c hc => space_not_digit (hw5 c hc)
  have hpmd : ∀ c ∈ [pm], isDigitCh c = false := by
    intro c hc; rw [List.mem_singleton] at hc; rw [hc]; exact prime_not_digit hpm
  have hpms : ∀ c ∈ [pm], isSpaceCh c = false := by
    intro c hc; rw [List.mem_singleton] at hc; rw [hc]; exact prime_not_space hpm
  have hsmd : ∀ c ∈ [sm], isDigitCh c = false := by
    intro c hc; rw [List.mem_singleton] at hc; rw [hc]; exact dquote_not_digit hsm
  have hsms : ∀ c ∈ [sm], isSpaceCh c = false := by
    intro c hc; rw [List.mem_singleton] at hc; rw [hc]; exact dquote_not_space hsm
  have ha : ∀ t, HeadNot isSpaceCh (d1 ++ t) :=
    fun t => headNot_append_of_ne_nil d1 t hd1 hnd1
  have hb : ∀ t, HeadNot isDigitCh (w1 ++ (['d', 'e', 'g'] ++ t)) :=
    fun t => headNot_append_cases w1 _ hw1d
      (headNot_append_of_ne_nil _ t (by simp) (by decide))
  have hc : ∀ t, HeadNot isSpaceCh (['d', 'e', 'g'] ++ t) :=
    fun t => headNot_append_of_ne_nil _ t (by simp) (by decide)
  have hdd : ∀ t, HeadNot isSpaceCh (d2 ++ t) :=
    fun t => headNot_append_of_ne_nil d2 t hd2 hnd2
  have he : ∀ t, HeadNot isDigitCh (w3 ++ ([pm] ++ t)) :=
    fun t => headNot_append_cases w3 _ hw3d
      (headNot_append_of_ne_nil [pm] t (by simp) hpmd)
  have hf : ∀ t, HeadNot isSpaceCh ([pm] ++ t) :=
    fun t => headNot_append_of_ne_nil [pm] t (by simp) hpms
  have hg : ∀ t, HeadNot isSpaceCh (si ++ t) :=
    fun t => headNot_append_of_ne_nil si t hsi hnsi
  have hh : ∀ t, HeadNot isDigitCh (w5 ++ ([sm] ++ t)) :=
    fun t => headNot_append_cases w5 _ hw5d
      (headNot_append_of_ne_nil [sm] t (by simp) hsmd)
  have hj : ∀ t, HeadNot isSpaceCh ([sm] ++ t) :=
    fun t => headNot_append_of_ne_nil [sm] t (by simp) hsms
  have hk : HeadNot isSpaceCh [dir] := headNot_cons (dir_not_space hdir)
  have hi : ∀ t, ∀ c r, w5 ++ ([sm] ++ t) = c :: r → c ≠ '.' :=
    fun t => headNeDot_spaces_dquote w5 t sm hw5 hsm
  unfold dmsCore dmsMatch
  rw [dropWhile_of_headNot (ha _)]
  rw [matchDigits1_spec d1 _ hd1 hd1d (hb _)]
  simp only [bindSome]
  rw [dropSpaces_skip w1 _ hw1 (hc _)]
  rw [matchCI_deg]
  simp only [bindSome]
  rw [matchSpaces1_spec w2 _ hw2n hw2 (hdd _)]
  simp only [bindSome]
  rw [matchDigits1_spec d2 _ hd2 hd2d (he _)]
  simp only [bindSome]
  rw [dropSpaces_skip w3 _ hw3 (hf _)]
  rw [matchPrime_spec pm _ hpm]
  simp only [bindSome]
  rw [matchSpaces1_spec w4 _ hw4n hw4 (hg _)]
  simp only [bindSome]
  rw [matchSeconds_spec si sf _ hsi hsid hsf (hh _) (hi _)]
  simp only [bindSome]
  rw [dropSpaces_skip w5 _ hw5 (hj _)]
  rw [matchDquote_spec sm _ hsm]
  simp only [bindSome]
  rw [matchSpaces1_spec w6 _ hw6n hw6 hk]
  simp only [bindSome]
  rw [matchDir_spec dir [] hdir]
  simp only [bindSome]
  rfl

theorem stripList_spec (w0 w7 m : List Char)
    (h0 : ∀ c ∈ w0, isSpaceCh c = true) (h7 : ∀ c ∈ w7, isSpaceCh c = true)
    (hm : HeadNot isSpaceCh (m ++ w7)) (hr : HeadNot isSpaceCh m.reverse) :
    stripList (w0 ++ (m ++ w7)) = m := by
  unfold stripList
  rw [dropWhile_append_all _ _ h0, dropWhile_of_headNot hm, List.reverse_append]
  rw [dropWhile_append_all _ _ fun c hcm => h7 c (List.mem_reverse.mp hcm)]
  rw [dropWhile_of_headNot hr, List.reverse_reverse]

/-- `parse_dms` on every well-formed DMS string returns
`sign(H) * (D + M/60 + S/3600)`. -/
theorem parse_dms_build (w0 w1 w2 w3 w4 w5 w6 w7 d1 d2 si : List Char)
    (sf : Option (List Char)) (pm sm dir : Char)
    (hw0 : ∀ c ∈ w0, isSpaceCh c = true) (hw1 : ∀ c ∈ w1, isSpaceCh c = true)
    (hw2 : ∀ c ∈ w2, isSpaceCh c = true) (hw3 : ∀ c ∈ w3, isSpaceCh c = true)
    (hw4 : ∀ c ∈ w4, isSpaceCh c = true) (hw5 : ∀ c ∈ w5, isSpaceCh c = true)
    (hw6 : ∀ c ∈ w6, isSpaceCh c = true) (hw7 : ∀ c ∈ w7, isSpaceCh c = true)
    (hw2n : w2 ≠ []) (hw4n : w4 ≠ []) (hw6n : w6 ≠ [])
    (hd1 : d1 ≠ []) (hd1d : ∀ c ∈ d1, isDigitCh c = true)
    (hd2 : d2 ≠ []) (hd2d : ∀ c ∈ d2, isDigitCh c = true)
    (hsi : si ≠ []) (hsid : ∀ c ∈ si, isDigitCh c = true)
    (hsf : ∀ f, sf = some f → f ≠ [] ∧ ∀ c ∈ f, isDigitCh c = true)
    (hpm : pm = '\'' ∨ pm = '′') (hsm : sm = '"' ∨ sm = '″')
    (hdir : dir.toUpper ∈ ['N', 'S', 'E', 'W']) :
    parse_dms (PyVal.str (String.mk
        (buildDMS w0 w1 w2 w3 w4 w5 w6 w7 d1 d2 si sf pm sm dir))) =
      Except.ok (some
        ((if dir.toUpper = 'S' ∨ dir.toUpper = 'W' then (-1 : ℚ) else 1) *
          ((natOfDigits d1 : ℚ) + (natOfDigits d2 : ℚ) / 60 +
            secondsVal (si, sf) / 3600))) := by
  have hnd1 : ∀ c ∈ d1, isSpaceCh c = false := fun c hc => digit_not_space (hd1d c hc)
  have hm : HeadNot isSpaceCh
      (dmsCore w1 w2 w3 w4 w5 w6 d1 d2 si sf pm sm dir ++ w7) := by
    unfold dmsCore
    rw [List.append_assoc]
    exact headNot_append_of_ne_nil d1 _ hd1 hnd1
  have hsplit : dmsCore w1 w2 w3 w4 w5 w6 d1 d2 si sf pm sm dir =
      (d1 ++ w1 ++ ['d', 'e', 'g'] ++ w2 ++ d2 ++ w3 ++ [pm] ++ w4 ++ si ++
        fracChars sf ++ w5 ++ [sm] ++ w6) ++ [dir] := by
    simp [dmsCore, List.append_assoc]
  have hr : HeadNot isSpaceCh
      (dmsCore w1 w2 w3 w4 w5 w6 d1 d2 si sf pm sm dir).reverse := by
    rw [hsplit, List.reverse_append]
    simp only [List.reverse_cons, List.reverse_nil, List.nil_append,
      List.singleton_append]
    exact headNot_cons (dir_not_space hdir)
  unfold parse_dms buildDMS
  simp only [PyVal.isna, Bool.false_eq_true, if_false]
  rw [stripList_spec w0 w7 _ hw0 hw7 hm hr]
  rw [dmsMatch_core w1 w2 w3 w4 w5 w6 d1 d2 si sf pm sm dir hw1 hw2 hw3 hw4
    hw5 hw6 hw2n hw4n hw6n hd1 hd1d hd2 hd2d hsi hsid hsf hpm hsm hdir]
  show (if dir.toUpper = 'S' ∨ dir.toUpper = 'W' then
      Except.ok (some (-((natOfDigits d1 : ℚ) + (natOfDigits d2 : ℚ) / 60 +
        secondsVal (si, sf) / 3600)))
    else Except.ok (some ((natOfDigits d1 : ℚ) + (natOfDigits d2 : ℚ) / 60 +
      secondsVal (si, sf) / 3600))) =
    Except.ok (some
      ((if dir.toUpper = 'S' ∨ dir.toUpper = 'W' then (-1 : ℚ) else 1) *
        ((natOfDigits d1 : ℚ) + (natOfDigits d2 : ℚ) / 60 +
          secondsVal (si, sf) / 3600)))
  by_cases hsw : dir.toUpper = 'S' ∨ dir.toUpper = 'W'
  · rw [if_pos hsw, if_pos hsw, neg_one_mul]
  · rw [if_neg hsw, if_neg hsw, one_mul]

/-! ### Claim theorems -/

/-- C1: for every well-formed DMS string of shape `D deg M' S" H` (`D`, `M`,
`S` arbitrary digit runs, `S` optionally decimal, `H` one of N/S/E/W in
either case), `parse_dms` returns `sign(H) * (D + M/60 + S/3600)` where
`sign` is +1 for N and E and −1 for S and W; minutes and seconds are not
range-checked, so e.g. 75 minutes is computed arithmetically. -/
theorem parse_dms_wellformed_value (d1 d2 si : List Char)
    (sf : Option (List Char)) (dir : Char)
    (hd1 : d1 ≠ []) (hd1d : ∀ c ∈ d1, isDigitCh c = true)
    (hd2 : d2 ≠ []) (hd2d : ∀ c ∈ d2, isDigitCh c = true)
    (hsi : si ≠ []) (hsid : ∀ c ∈ si, isDigitCh c = true)
    (hsf : ∀ f, sf = some f → f ≠ [] ∧ ∀ c ∈ f, isDigitCh c = true)
    (hdir : dir.toUpper ∈ ['N', 'S', 'E', 'W']) :
    parse_dms (PyVal.str (String.mk (buildDMS [] [' '] [' '] [] [' '] [] [' ']
        [] d1 d2 si sf '\'' '"' dir))) =
      Except.ok (some
        ((if dir.toUpper = 'S' ∨ dir.toUpper = 'W' then (-1 : ℚ) else 1) *
          ((natOfDigits d1 : ℚ) + (natOfDigits d2 : ℚ) / 60 +
            secondsVal (si, sf) / 3600))) :=
  parse_dms_build [] [' '] [' '] [] [' '] [] [' '] [] d1 d2 si sf '\'' '"' dir
    (by simp) (by decide) (by decide) (by simp) (by decide) (by simp)
    (by decide) (by simp) (by decide) (by decide) (by decide)
    hd1 hd1d hd2 hd2d hsi hsid hsf (Or.inl rfl) (Or.inl rfl) hdir

theorem parse_dms_wellformed_value_witness :
    parse_dms (PyVal.str (String.mk (buildDMS [] [' '] [' '] [] [' '] [] [' ']
        [] ['3', '7'] ['7', '5'] ['9'] Option.none '\'' '"' 'W'))) =
      Except.ok (some
        ((if Char.toUpper 'W' = 'S' ∨ Char.toUpper 'W' = 'W' then (-1 : ℚ)
            else 1) *
          ((natOfDigits ['3', '7'] : ℚ) + (natOfDigits ['7', '5'] : ℚ) / 60 +
            secondsVal (['9'], Option.none) / 3600))) :=
  parse_dms_wellformed_value ['3', '7'] ['7', '5'] ['9'] Option.none 'W'
    (by decide) (by decide) (by decide) (by decide) (by decide) (by decide)
    (fun f hf => Option.noConfusion hf) (by decide)

/-- C2: every string whose stripped text fails the anchored structural
pattern makes `parse_dms` raise a `ValueError` carrying the offending text;
it never returns a silent default. -/
theorem parse_dms_mismatch_error (s : String)
    (h : dmsMatch (stripList s.data) = Option.none) :
    parse_dms (PyVal.str s) = Except.error ("Invalid DMS format: " ++ s) := by
  unfold parse_dms
  simp only [PyVal.isna, Bool.false_eq_true, if_false]
  rw [h]

theorem parse_dms_mismatch_error_witness :
    parse_dms (PyVal.str "37 deg 36' N") =
      Except.error ("Invalid DMS format: " ++ "37 deg 36' N") :=
  parse_dms_mismatch_error "37 deg 36' N" (by decide)

/-- C8: null-like input returns a null result rather than raising, and no
string input ever yields the null result (every string either parses to a
value or raises), so the null sentinel is the single accepted no-value case
of the parser. -/
theorem parse_dms_null_sentinel :
    parse_dms PyVal.none = Except.ok Option.none ∧
      ∀ s : String, parse_dms (PyVal.str s) ≠ Except.ok Option.none := by
  refine ⟨rfl, fun s h => ?_⟩
  unfold parse_dms at h
  simp only [PyVal.isna, Bool.false_eq_true, if_false] at h
  cases hm : dmsMatch (stripList s.data) with
  | none =>
    rw [hm] at h
    exact absurd h (by simp)
  | some g =>
    rw [hm] at h
    have h2 : (if g.direction.toUpper = 'S' ∨ g.direction.toUpper = 'W' then
        (Except.ok (some (-((natOfDigits g.degDigits : ℚ) +
          (natOfDigits g.minDigits : ℚ) / 60 +
          secondsVal (g.secInt, g.secFrac) / 3600))) :
            Except String (Option ℚ))
      else Except.ok (some ((natOfDigits g.degDigits : ℚ) +
        (natOfDigits g.minDigits : ℚ) / 60 +
        secondsVal (g.secInt, g.secFrac) / 3600))) = Except.ok Option.none := h
    by_cases hsw : g.direction.toUpper = 'S' ∨ g.direction.toUpper = 'W'
    · rw [if_pos hsw] at h2
      exact absurd h2 (by simp)
    · rw [if_neg hsw] at h2
      exact absurd h2 (by simp)

theorem parse_dms_null_sentinel_witness :
    parse_dms PyVal.none = Except.ok Option.none ∧
      parse_dms (PyVal.str "") ≠ Except.ok Option.none :=
  ⟨parse_dms_null_sentinel.1, parse_dms_null_sentinel.2 ""⟩

/-- C7 counterexample: with zero whitespace between the minutes marker and
the seconds token, `parse_dms` rejects the string instead of accepting it. -/
theorem parse_dms_zero_ws_after_marker_rejected :
    parse_dms (PyVal.str "37 deg 36'55\" N") =
      Except.error "Invalid DMS format: 37 deg 36'55\" N" := by
  unfold parse_dms
  simp only [PyVal.isna, Bool.false_eq_true, if_false]
  rw [show dmsMatch (stripList ("37 deg 36'55\" N").data) = Option.none
    from by decide]
  rfl

/-- C7 (amended): whitespace separating the tokens is flexible in amount —
any amount (including zero) before each marker and at either end, and any
positive amount after `deg`, after the minutes marker and after the seconds
marker — and every such string is accepted. -/
theorem parse_dms_flexible_whitespace (w0 w1 w2 w3 w4 w5 w6 w7 d1 d2 si :
      List Char) (sf : Option (List Char)) (pm sm dir : Char)
    (hw0 : ∀ c ∈ w0, isSpaceCh c = true) (hw1 : ∀ c ∈ w1, isSpaceCh c = true)
    (hw2 : ∀ c ∈ w2, isSpaceCh c = true) (hw3 : ∀ c ∈ w3, isSpaceCh c = true)
    (hw4 : ∀ c ∈ w4, isSpaceCh c = true) (hw5 : ∀ c ∈ w5, isSpaceCh c = true)
    (hw6 : ∀ c ∈ w6, isSpaceCh c = true) (hw7 : ∀ c ∈ w7, isSpaceCh c = true)
    (hw2n : w2 ≠ []) (hw4n : w4 ≠ []) (hw6n : w6 ≠ [])
    (hd1 : d1 ≠ []) (hd1d : ∀ c ∈ d1, isDigitCh c = true)
    (hd2 : d2 ≠ []) (hd2d : ∀ c ∈ d2, isDigitCh c = true)
    (hsi : si ≠ []) (hsid : ∀ c ∈ si, isDigitCh c = true)
    (hsf : ∀ f, sf = some f → f ≠ [] ∧ ∀ c ∈ f, isDigitCh c = true)
    (hpm : pm = '\'' ∨ pm = '′') (hsm : sm = '"' ∨ sm = '″')
    (hdir : dir.toUpper ∈ ['N', 'S', 'E', 'W']) :
    ∃ q : ℚ, parse_dms (PyVal.str (String.mk
      (buildDMS w0 w1 w2 w3 w4 w5 w6 w7 d1 d2 si sf pm sm dir))) =
        Except.ok (some q) :=
  ⟨_, parse_dms_build w0 w1 w2 w3 w4 w5 w6 w7 d1 d2 si sf pm sm dir hw0 hw1
    hw2 hw3 hw4 hw5 hw6 hw7 hw2n hw4n hw6n hd1 hd1d hd2 hd2d hsi hsid hsf
    hpm hsm hdir⟩

theorem parse_dms_flexible_whitespace_witness :
    ∃ q : ℚ, parse_dms (PyVal.str (String.mk
      (buildDMS [' '] [] [' ', ' '] [] [' ', '\t'] [] [' '] [' ', ' ']
        ['3', '7'] ['7', '5'] ['9'] (some ['2', '5']) '′' '″' 'n'))) =
        Except.ok (some q) :=
  parse_dms_flexible_whitespace [' '] [] [' ', ' '] [] [' ', '\t'] [] [' ']
    [' ', ' '] ['3', '7'] ['7', '5'] ['9'] (some ['2', '5']) '′' '″' 'n'
    (by decide) (by simp) (by decide) (by simp) (by decide) (by simp)
    (by decide) (by decide) (by decide) (by decide) (by decide) (by decide)
    (by decide) (by decide) (by decide) (by decide) (by decide)
    (by intro f hf; rw [(Option.some.injEq ..).mp hf.symm]; exact ⟨by decide, by decide⟩)
    (Or.inr rfl) (Or.inr rfl) (by decide)

/-- C9: `parse_dms` is case-insensitive on the hemisphere letter and treats
the ASCII and Unicode prime and double-prime marks identically: parsing with
marks `pm`/`sm` and hemisphere `dir` gives the same result as parsing the
canonical string with ASCII marks and the upper-cased hemisphere. -/
theorem parse_dms_mark_case_insensitive (d1 d2 si : List Char)
    (sf : Option (List Char)) (pm sm dir : Char)
    (hd1 : d1 ≠ []) (hd1d : ∀ c ∈ d1, isDigitCh c = true)
    (hd2 : d2 ≠ []) (hd2d : ∀ c ∈ d2, isDigitCh c = true)
    (hsi : si ≠ []) (hsid : ∀ c ∈ si, isDigitCh c = true)
    (hsf : ∀ f, sf = some f → f ≠ [] ∧ ∀ c ∈ f, isDigitCh c = true)
    (hpm : pm = '\'' ∨ pm = '′') (hsm : sm = '"' ∨ sm = '″')
    (hdir : dir.toUpper ∈ ['N', 'S', 'E', 'W']) :
    parse_dms (PyVal.str (String.mk (buildDMS [] [' '] [' '] [] [' '] []
        [' '] [] d1 d2 si sf pm sm dir))) =
      parse_dms (PyVal.str (String.mk (buildDMS [] [' '] [' '] [] [' '] []
        [' '] [] d1 d2 si sf '\'' '"' dir.toUpper))) := by
  have hup : dir.toUpper.toUpper = dir.toUpper := by
    have h1 := hdir
    simp only [List.mem_cons, List.not_mem_nil, or_false] at h1
    rcases h1 with h | h | h | h <;> rw [h] <;> decide
  have hdir2 : dir.toUpper.toUpper ∈ ['N', 'S', 'E', 'W'] := by
    rw [hup]; exact hdir
  rw [parse_dms_build [] [' '] [' '] [] [' '] [] [' '] [] d1 d2 si sf pm sm
    dir (by simp) (by decide) (by decide) (by simp) (by decide) (by simp)
    (by decide) (by simp) (by decide) (by decide) (by decide)
    hd1 hd1d hd2 hd2d hsi hsid hsf hpm hsm hdir]
  rw [parse_dms_build [] [' '] [' '] [] [' '] [] [' '] [] d1 d2 si sf '\''
    '"' dir.toUpper (by simp) (by decide) (by decide) (by simp) (by decide)
    (by simp) (by decide) (by simp) (by decide) (by decide) (by decide)
    hd1 hd1d hd2 hd2d hsi hsid hsf (Or.inl rfl) (Or.inl rfl) hdir2]
  rw [hup]

/-- C3: a record whose latitude or longitude field is missing, empty, or the
null sentinel (None or NaN) yields exactly
`{address: "No coordinates available", latitude: null, longitude: null}`,
with neither the parser nor the geocoding client invoked. -/
theorem process_row_missing_coordinate (client : GeoClient) (r : InRow)
    (h : r.gpsLat = Option.none ∨ r.gpsLat = some (PyVal.str "") ∨
      r.gpsLat = some PyVal.none ∨ r.gpsLat = some PyVal.nan ∨
      r.gpsLng = Option.none ∨ r.gpsLng = some (PyVal.str "") ∨
      r.gpsLng = some PyVal.none ∨ r.gpsLng = some PyVal.nan) :
    process_row r client =
      (⟨"No coordinates available", Option.none, Option.none⟩, 0, 0) := by
  rcases h with h | h | h | h | h | h | h | h <;>
    simp [process_row, InRow.getLat, InRow.getLng, h, PyVal.isna, PyVal.truthy]

theorem process_row_missing_coordinate_witness :
    process_row ⟨"a.jpg", Option.none, some (PyVal.str "x")⟩ okEmptyClient =
      (⟨"No coordinates available", Option.none, Option.none⟩, 0, 0) :=
  process_row_missing_coordinate okEmptyClient
    ⟨"a.jpg", Option.none, some (PyVal.str "x")⟩ (Or.inl rfl)

/-- C4: a record whose coordinate texts are present (non-empty strings) but
where parsing raises for the latitude or the longitude yields a row whose
address begins with `"Error:"` and whose latitude and longitude are null. -/
theorem process_row_parse_failure (client : GeoClient) (r : InRow)
    (la lb : String)
    (hla : r.gpsLat = some (PyVal.str la)) (hlb : r.gpsLng = some (PyVal.str lb))
    (hna : la ≠ "") (hnb : lb ≠ "")
    (herr : (∃ e, parse_dms (PyVal.str la) = Except.error e) ∨
      (∃ e, parse_dms (PyVal.str lb) = Except.error e)) :
    ∃ m, (process_row r client).1 =
      ⟨"Error: " ++ m, Option.none, Option.none⟩ := by
  have hgl : InRow.getLat r = PyVal.str la := by simp [InRow.getLat, hla]
  have hgr : InRow.getLng r = PyVal.str lb := by simp [InRow.getLng, hlb]
  cases hpa : parse_dms (PyVal.str la) with
  | error ea =>
    refine ⟨ea, ?_⟩
    simp [process_row, hgl, hgr, PyVal.isna, PyVal.truthy, hna, hnb, hpa]
  | ok xa =>
    rcases herr with ⟨e, he⟩ | ⟨e, he⟩
    · rw [hpa] at he
      exact absurd he (by simp)
    · refine ⟨e, ?_⟩
      simp [process_row, hgl, hgr, PyVal.isna, PyVal.truthy, hna, hnb, hpa, he]

theorem process_row_parse_failure_witness :
    ∃ m, (process_row ⟨"a.jpg", some (PyVal.str "bad"),
        some (PyVal.str "37 deg 36' 55.54\" N")⟩ okEmptyClient).1 =
      ⟨"Error: " ++ m, Option.none, Option.none⟩ :=
  process_row_parse_failure okEmptyClient _ "bad" "37 deg 36' 55.54\" N" rfl
    rfl (by decide) (by decide)
    (Or.inl ⟨"Invalid DMS format: bad", by
      unfold parse_dms
      simp only [PyVal.isna, Bool.false_eq_true, if_false]
      rw [show dmsMatch (stripList ("bad").data) = Option.none from by decide]
      rfl⟩)

/-- C5: a record whose two coordinates parse successfully but whose
geocoding lookup raises yields a row whose address begins with
`"Error getting address:"` and whose latitude and longitude equal the parsed
decimal-degree values (not null). -/
theorem process_row_lookup_failure (client : GeoClient) (r : InRow)
    (la lb : String) (x y : ℚ) (e : String)
    (hla : r.gpsLat = some (PyVal.str la)) (hlb : r.gpsLng = some (PyVal.str lb))
    (hna : la ≠ "") (hnb : lb ≠ "")
    (hx : parse_dms (PyVal.str la) = Except.ok (some x))
    (hy : parse_dms (PyVal.str lb) = Except.ok (some y))
    (hc : client x y = Except.error e) :
    (process_row r client).1 =
      ⟨"Error getting address: " ++ e, some x, some y⟩ := by
  have hgl : InRow.getLat r = PyVal.str la := by simp [InRow.getLat, hla]
  have hgr : InRow.getLng r = PyVal.str lb := by simp [InRow.getLng, hlb]
  simp [process_row, hgl, hgr, PyVal.isna, PyVal.truthy, hna, hnb, hx, hy,
    get_address_from_coordinates, hc]

theorem process_row_lookup_failure_witness :
    (process_row ⟨"a.jpg", some (PyVal.str "10 deg 30' 36\" N"),
        some (PyVal.str "20 deg 15' 9\" W")⟩ failClient).1 =
      ⟨"Error getting address: " ++ "boom", some ((1051 : ℚ) / 100),
        some (-(8101 : ℚ) / 400)⟩ :=
  process_row_lookup_failure failClient _ "10 deg 30' 36\" N"
    "20 deg 15' 9\" W" ((1051 : ℚ) / 100) (-(8101 : ℚ) / 400) "boom" rfl rfl
    (by decide) (by decide)
    (by
      unfold parse_dms
      simp only [PyVal.isna, Bool.false_eq_true, if_false]
      rw [show dmsMatch (stripList ("10 deg 30' 36\" N").data) =
        some ⟨['1', '0'], ['3', '0'], ['3', '6'], Option.none, 'N'⟩
        from by decide]
      show Except.ok (some ((10 : ℚ) + 30 / 60 + 36 / 3600)) = _
      norm_num)
    (by
      unfold parse_dms
      simp only [PyVal.isna, Bool.false_eq_true, if_false]
      rw [show dmsMatch (stripList ("20 deg 15' 9\" W").data) =
        some ⟨['2', '0'], ['1', '5'], ['9'], Option.none, 'W'⟩
        from by decide]
      show Except.ok (some (-((20 : ℚ) + 15 / 60 + 9 / 3600))) = _
      norm_num)
    rfl

/-- C6: the batch pipeline produces exactly one output row per input row, in
the same order, and the output row at every index carries input row's
`SourceFile` identifier through unchanged. -/
theorem pipeline_preserves_rows (client : GeoClient) (rows : List InRow) :
    (process_coordinates_file client rows).length = rows.length ∧
    ∀ i : ℕ, ((process_coordinates_file client rows).get? i).map
        (fun o => o.filename) = (rows.get? i).map (fun o => o.sourceFile) := by
  constructor
  · simp [process_coordinates_file]
  · intro i
    simp [process_coordinates_file, List.getElem?_map]
    cases rows[i]? <;> rfl

theorem parse_dms_mark_case_insensitive_witness :
    parse_dms (PyVal.str (String.mk (buildDMS [] [' '] [' '] [] [' '] []
        [' '] [] ['3', '7'] ['3', '6'] ['5', '5'] (some ['5', '4']) '\'' '″'
        'N'))) =
      parse_dms (PyVal.str (String.mk (buildDMS [] [' '] [' '] [] [' '] []
        [' '] [] ['3', '7'] ['3', '6'] ['5', '5'] (some ['5', '4']) '\'' '"'
        (Char.toUpper 'N')))) :=
  parse_dms_mark_case_insensitive ['3', '7'] ['3', '6'] ['5', '5']
    (some ['5', '4']) '\'' '″' 'N' (by decide) (by decide) (by decide)
    (by decide) (by decide) (by decide)
    (by
      intro f hf
      rw [(Option.some.injEq ..).mp hf.symm]
      exact ⟨by decide, by decide⟩)
    (Or.inl rfl) (Or.inr rfl) (by decide)

/-- C10 counterexample: with a truthy numeric latitude and a well-formed DMS
longitude string, the returned longitude is the parsed value, not null (the
address is still "No coordinates available" and the client is not invoked). -/
theorem process_row_nonstring_mixed_counterexample :
    (process_row ⟨"img.jpg", some (PyVal.num 5),
        some (PyVal.str "122 deg 25' 9.85\" W")⟩ okEmptyClient).1.longitude ≠
      Option.none := by decide

/-- C10 (amended): when BOTH coordinate fields hold truthy non-string,
non-null values, `process_row` returns address "No coordinates available"
with null latitude and longitude and the geocoding client is never invoked;
`parse_dms` returns null for any non-string input, and the address lookup
short-circuits on a null coordinate before contacting the client. -/
theorem process_row_nonstring_fields (client : GeoClient) (r : InRow)
    (h1 : TruthyNonString (InRow.getLat r))
    (h2 : TruthyNonString (InRow.getLng r)) :
    (process_row r client).1 =
        ⟨"No coordinates available", Option.none, Option.none⟩ ∧
      (process_row r client).2.2 = 0 ∧
      (∀ q : ℚ, parse_dms (PyVal.num q) = Except.ok Option.none) ∧
      (∀ z : Option ℚ,
        get_address_from_coordinates client Option.none z =
          ("No coordinates available", 0)) ∧
      (∀ z : Option ℚ,
        get_address_from_coordinates client z Option.none =
          ("No coordinates available", 0)) := by
  refine ⟨?_, ?_, fun q => rfl, fun z => by cases z <;> rfl,
    fun z => by cases z <;> rfl⟩ <;>
  · rcases h1 with h1 | ⟨p, h1, hp⟩ <;> rcases h2 with h2 | ⟨q, h2, hq⟩ <;>
      simp_all [process_row, PyVal.isna, PyVal.truthy, parse_dms,
        get_address_from_coordinates]

theorem process_row_nonstring_fields_witness :
    (process_row ⟨"f.jpg", some (PyVal.num 5), some PyVal.nan⟩
          okEmptyClient).1 =
        ⟨"No coordinates available", Option.none, Option.none⟩ ∧
      (process_row ⟨"f.jpg", some (PyVal.num 5), some PyVal.nan⟩
          okEmptyClient).2.2 = 0 ∧
      (∀ q : ℚ, parse_dms (PyVal.num q) = Except.ok Option.none) ∧
      (∀ z : Option ℚ,
        get_address_from_coordinates okEmptyClient Option.none z =
          ("No coordinates available", 0)) ∧
      (∀ z : Option ℚ,
        get_address_from_coordinates okEmptyClient z Option.none =
          ("No coordinates available", 0)) :=
  process_row_nonstring_fields okEmptyClient
    ⟨"f.jpg", some (PyVal.num 5), some PyVal.nan⟩
    (Or.inr ⟨5, rfl, by norm_num⟩) (Or.inl rfl)

end DoxLens
